import Mathlib

/-!
A shallow embedding, in Lean, of the order / referral / payment-reconciliation
core of the grillz e-commerce backend (`models.py`, `routes/orders.py`,
`routes/referrals.py`, `routes/auth.py`).

Modelling conventions:
* Database rows become Lean structures; the database is a record of row lists.
* SQLAlchemy's `scalar_one_or_none()` on a filtered `select` is modelled as
  `List.find?` with the same predicate (first matching row, `none` if absent).
  This is exact whenever at most one row matches; when two or more rows match
  the Python call instead raises `MultipleResultsFound`, so wherever a caller
  wraps the query in a broad `except` (as `apply_referral_discount` does) the
  code grants nothing on that path while the first-match model still returns
  a row. Theorems must therefore not rely on a grant in a multi-match state:
  grant conclusions are drawn only at states with at most one matching row
  (where the model coincides with the code), and existence conclusions drawn
  from a grant are sound regardless, since the model's grants are a superset
  of the code's.
* ORM attribute assignment followed by `commit()` is modelled as a functional
  update of the matching row (by primary key id) in the row list.
* Money amounts are rationals; the Python float literals `0.9` and `0.8`
  denote the exact decimal rates 9/10 and 4/5 here.
* Fallible external effects (the order insert's `commit()` and the
  `stripe.checkout.Session.create` call in `create_order`, and an exception
  inside a webhook handler caught by `stripe_webhook`) are modelled by
  explicit boolean failure-injection parameters; an exception aborts the
  function at the corresponding program point, and uncommitted session state
  is discarded, exactly as the source's commit boundaries dictate.
-/

namespace GrillzShop

/-- Row of the `users` table (`models.py`, class `User`); `referred_by` stores
the referral-code string used during registration, if any. -/
structure UserRow where
  id : Nat
  email : String
  fullName : String
  hashedPassword : String
  isActive : Bool := true
  isAdmin : Bool := false
  referredBy : Option String := none
deriving DecidableEq, Repr

/-- Row of the `orders` table (`models.py`, class `Order`). `discountApplied`
is the `"discount_applied"` entry that `create_order` merges into the order's
`product_details` JSON payload; `stripePaymentIntent` holds the gateway
checkout-session id used as the reconciliation key. -/
structure OrderRow where
  id : Nat
  uuid : String
  userId : Nat
  productType : String
  material : String
  teethSelection : List Nat := []
  discountApplied : Option String := none
  totalPrice : ℚ
  shippingFullName : String := ""
  shippingAddress : String := ""
  shippingCity : String := ""
  shippingZipCode : String := ""
  stripePaymentIntent : Option String := none
  paymentStatus : String := "pending"
deriving DecidableEq, Repr

/-- Row of the `referral_codes` table (`models.py`, class `ReferralCode`). -/
structure ReferralCodeRow where
  id : Nat
  code : String
  userId : Nat
deriving DecidableEq, Repr

/-- Row of the `referral_uses` table (`models.py`, class `ReferralUse`):
one row per (referral code, referred user), two one-shot discount flags,
and the activation state set when the referred user's first order is paid. -/
structure ReferralUseRow where
  id : Nat
  referralCodeId : Nat
  referredUserId : Nat
  firstOrderId : Option Nat := none
  referrerDiscountUsed : Bool := false
  refereeDiscountUsed : Bool := false
  isActive : Bool := false
deriving DecidableEq, Repr

/-- The persistent store: the four tables the order/referral/reconciliation
core reads and writes. -/
structure DB where
  users : List UserRow := []
  orders : List OrderRow := []
  referralCodes : List ReferralCodeRow := []
  referralUses : List ReferralUseRow := []
deriving DecidableEq, Repr

/-- Material configuration entry of the `GRILLZ_PRICES` table
(`routes/orders.py`). -/
structure MaterialConfig where
  price : ℚ
  name : String
  description : String
deriving DecidableEq, Repr

/-- The `GRILLZ_PRICES` pricing table of `routes/orders.py`: per-tooth unit
price keyed by material. -/
def GRILLZ_PRICES : List (String × MaterialConfig) :=
  [("gold", ⟨299, "18K Gold", "Premium 18K gold finish"⟩),
   ("silver", ⟨149, "Silver", "Sterling silver finish"⟩),
   ("diamond", ⟨999, "Iced", "Premium diamond setting"⟩)]

/-- The `OrderCreate` request body (`routes/orders.py`): `productType` is
constrained by the pydantic pattern to grillz/watch/bracelet;
`productDetailsPrice` models `product_details.get("price", 0)`, the only
entry of the `product_details` dict the pricing logic reads. -/
structure OrderCreate where
  productType : String
  material : String
  teethSelection : List Nat := []
  productDetailsPrice : ℚ := 0
  shippingFullName : String := "n"
  shippingAddress : String := "a"
  shippingCity : String := "c"
  shippingZipCode : String := "z"
  useReferralDiscount : Bool := false
deriving DecidableEq, Repr

/-- Validation failures of `create_order`'s price computation, each raised as
HTTP 400 in the source. -/
inductive PriceError where
  | invalidMaterial
  | noTeethSelected
  | invalidProductPrice
deriving DecidableEq, Repr

/-- The price-validation prefix of `create_order` (`routes/orders.py`,
lines 146-172): grillz orders need a known material and a nonempty teeth
selection and cost unit price times tooth count; watch/bracelet orders take
the caller-supplied strictly positive price; the trailing `.ok 0` is
unreachable under the pydantic pattern on `product_type`. -/
def compute_base_price (data : OrderCreate) : Except PriceError ℚ :=
  if data.productType == "grillz" then
    match GRILLZ_PRICES.lookup data.material with
    | none => .error .invalidMaterial
    | some mc =>
      if data.teethSelection.isEmpty then .error .noTeethSelected
      else .ok (mc.price * (data.teethSelection.length : ℚ))
  else if data.productType == "watch" || data.productType == "bracelet" then
    if data.productDetailsPrice ≤ 0 then .error .invalidProductPrice
    else .ok data.productDetailsPrice
  else .ok 0

/-- Query of `apply_referral_discount` / `check_available_discount`: the
user's unused referee discount — a `ReferralUse` where they are the referred
party and `referee_discount_used` is false. -/
def findRefereeUse (db : DB) (userId : Nat) : Option ReferralUseRow :=
  db.referralUses.find? fun ru =>
    ru.referredUserId == userId && ru.refereeDiscountUsed == false

/-- Query for the referral code owned by a user. -/
def findCodeOfUser (db : DB) (userId : Nat) : Option ReferralCodeRow :=
  db.referralCodes.find? fun rc => rc.userId == userId

/-- Referrer-discount query of `apply_referral_discount`
(`routes/orders.py`, lines 301-305): filters only on the code id and
`referrer_discount_used = false` — it does NOT filter on `is_active`.
First-match model of `scalar_one_or_none()`: exact when at most one row
matches; with two or more matching rows the Python call raises
`MultipleResultsFound` and `apply_referral_discount`'s `except` grants no
discount, whereas this model returns the first row — so a grant may be
concluded from it only at states with at most one matching row (see
`referrerCandidates`). -/
def findReferrerUse (db : DB) (codeId : Nat) : Option ReferralUseRow :=
  db.referralUses.find? fun ru =>
    ru.referralCodeId == codeId && ru.referrerDiscountUsed == false

/-- The full match set of the order-time referrer query: every `ReferralUse`
row the `select` of `routes/orders.py` lines 301-305 returns. The Python
`scalar_one_or_none()` yields the row exactly when this list is a singleton,
`None` when it is empty, and raises `MultipleResultsFound` otherwise. -/
def referrerCandidates (db : DB) (codeId : Nat) : List ReferralUseRow :=
  db.referralUses.filter fun ru =>
    ru.referralCodeId == codeId && ru.referrerDiscountUsed == false

/-- Referrer-discount query of `check_available_discount`
(`routes/referrals.py`, lines 118-123): same filter plus
`is_active = true` ("Only count active referrals"). First-match model of
`scalar_one_or_none()` with the same caveat as `findReferrerUse`: exact at
states with at most one matching row (with more, the endpoint — which has no
`except` — would raise instead of answering). -/
def findActiveReferrerUse (db : DB) (codeId : Nat) : Option ReferralUseRow :=
  db.referralUses.find? fun ru =>
    ru.referralCodeId == codeId && ru.referrerDiscountUsed == false &&
      ru.isActive == true

/-- Functional update marking a referral-use row's `referee_discount_used`. -/
def markRefereeUsed (uses : List ReferralUseRow) (targetId : Nat) :
    List ReferralUseRow :=
  uses.map fun ru =>
    if ru.id == targetId then { ru with refereeDiscountUsed := true } else ru

/-- Functional update marking a referral-use row's `referrer_discount_used`. -/
def markReferrerUsed (uses : List ReferralUseRow) (targetId : Nat) :
    List ReferralUseRow :=
  uses.map fun ru =>
    if ru.id == targetId then { ru with referrerDiscountUsed := true } else ru

/-- Result of `apply_referral_discount`: the committed store plus the
`(total_price, discount_type)` pair the Python helper returns. -/
structure DiscountResult where
  db : DB
  totalPrice : ℚ
  discountType : Option String
deriving DecidableEq, Repr

/-- The helper `apply_referral_discount` (`routes/orders.py`, lines 276-319):
first an unused referee discount (10% off, rate 9/10 of the price kept),
otherwise an unused referrer discount on the user's own code (20% off);
the chosen flag is marked used and committed inside this helper. -/
def apply_referral_discount (db : DB) (userId : Nat) (totalPrice : ℚ) :
    DiscountResult :=
  match findRefereeUse db userId with
  | some ru =>
      { db := { db with referralUses := markRefereeUsed db.referralUses ru.id }
        totalPrice := totalPrice * (9/10)
        discountType := some "referee" }
  | none =>
    match findCodeOfUser db userId with
    | some rc =>
      match findReferrerUse db rc.id with
      | some ru =>
          { db :=
              { db with referralUses := markReferrerUsed db.referralUses ru.id }
            totalPrice := totalPrice * (4/5)
            discountType := some "referrer" }
      | none => { db := db, totalPrice := totalPrice, discountType := none }
    | none => { db := db, totalPrice := totalPrice, discountType := none }

/-- The read-only preview endpoint `check_available_discount`
(`routes/referrals.py`, lines 97-128): returns the discount rate and kind
without consuming anything; its referrer branch, unlike
`apply_referral_discount`'s, requires `is_active = true`. -/
def check_available_discount (db : DB) (userId : Nat) : ℚ × Option String :=
  match findRefereeUse db userId with
  | some _ => (1/10, some "referee")
  | none =>
    match findCodeOfUser db userId with
    | some rc =>
      match findActiveReferrerUse db rc.id with
      | some _ => (1/5, some "referrer")
      | none => (0, none)
    | none => (0, none)

/-- Outcome of a `create_order` request, including the two injected failure
points after the discount flag has been committed. -/
inductive CreateOrderOutcome where
  | validationError (e : PriceError)
  | orderCommitFailed
  | checkoutSessionFailed
  | created (orderUuid : String) (totalPrice : ℚ) (paymentIntentId : String)
deriving DecidableEq, Repr

/-- Failure-injection environment for `create_order`: whether the order
insert's `commit()` succeeds, whether `stripe.checkout.Session.create`
succeeds, and the session id the gateway returns. -/
structure StripeEnv where
  orderCommitOk : Bool := true
  checkoutSessionOk : Bool := true
  sessionId : String := "cs_test"
deriving DecidableEq, Repr

/-- The `create_order` route (`routes/orders.py`, lines 136-247): validate and
price; if the caller opted in, let `apply_referral_discount` pick and commit a
discount (its own transaction); insert the pending order and commit; open the
gateway checkout session (an exception here propagates, leaving the committed
order without a session id); finally store the session id and commit. -/
def create_order (db : DB) (userId : Nat) (data : OrderCreate)
    (newOrderId : Nat) (orderUuid : String) (env : StripeEnv) :
    DB × CreateOrderOutcome :=
  match compute_base_price data with
  | .error e => (db, .validationError e)
  | .ok basePrice =>
    let dres :=
      if data.useReferralDiscount then
        apply_referral_discount db userId basePrice
      else ⟨db, basePrice, none⟩
    if env.orderCommitOk = false then (dres.db, .orderCommitFailed)
    else
      let order : OrderRow :=
        { id := newOrderId
          uuid := orderUuid
          userId := userId
          productType := data.productType
          material := data.material
          teethSelection := data.teethSelection
          discountApplied := dres.discountType
          totalPrice := dres.totalPrice
          shippingFullName := data.shippingFullName
          shippingAddress := data.shippingAddress
          shippingCity := data.shippingCity
          shippingZipCode := data.shippingZipCode
          stripePaymentIntent := none
          paymentStatus := "pending" }
      let db2 := { dres.db with orders := dres.db.orders ++ [order] }
      if env.checkoutSessionOk = false then (db2, .checkoutSessionFailed)
      else
        let db3 :=
          { db2 with
            orders := db2.orders.map fun o =>
              if o.id == newOrderId then
                { o with stripePaymentIntent := some env.sessionId }
              else o }
        (db3, .created orderUuid dres.totalPrice env.sessionId)

/-- Reconciliation lookup: the order whose stored checkout-session id matches
the event's session id. -/
def findOrderBySession (db : DB) (sessionId : String) : Option OrderRow :=
  db.orders.find? fun o => o.stripePaymentIntent == some sessionId

/-- The helper `activate_referral_bonus` (`routes/orders.py`, lines 430-475):
if the paying user was referred, look up the referral code they used and the
matching `ReferralUse`; if it is already active this is a no-op, otherwise set
`is_active = true` and `first_order_id` to the paid order's id. -/
def activate_referral_bonus (db : DB) (userId : Nat) (orderId : Nat) : DB :=
  match db.users.find? fun u => u.id == userId with
  | none => db
  | some u =>
    match u.referredBy with
    | none => db
    | some codeStr =>
      match db.referralCodes.find? fun rc => rc.code == codeStr with
      | none => db
      | some rc =>
        match db.referralUses.find? fun ru =>
            ru.referralCodeId == rc.id && ru.referredUserId == userId with
        | none => db
        | some ru =>
          if ru.isActive then db
          else
            { db with
              referralUses := db.referralUses.map fun x =>
                if x.id == ru.id then
                  { x with isActive := true, firstOrderId := some orderId }
                else x }

/-- The handler `handle_successful_payment` (`routes/orders.py`, lines
379-407): unknown session → log and drop; order already paid → detected
no-op; otherwise mark the order paid and activate the referral bonus. -/
def handle_successful_payment (db : DB) (sessionId : String) : DB :=
  match findOrderBySession db sessionId with
  | none => db
  | some o =>
    if o.paymentStatus == "paid" then db
    else
      let db1 :=
        { db with
          orders := db.orders.map fun x =>
            if x.id == o.id then { x with paymentStatus := "paid" } else x }
      activate_referral_bonus db1 o.userId o.id

/-- The handler `handle_failed_payment` (`routes/orders.py`, lines 409-428):
unknown session → log and drop; otherwise the order's status is set to
`failed` — with no check of its current status. -/
def handle_failed_payment (db : DB) (sessionId : String) : DB :=
  match findOrderBySession db sessionId with
  | none => db
  | some o =>
    { db with
      orders := db.orders.map fun x =>
        if x.id == o.id then { x with paymentStatus := "failed" } else x }

/-- A signature-verified gateway event, after
`stripe.Webhook.construct_event` has succeeded. -/
inductive WebhookEvent where
  | checkoutSessionCompleted (sessionId : String)
  | checkoutSessionExpired (sessionId : String)
  | other (eventType : String)
deriving DecidableEq, Repr

/-- Dispatch of the `stripe_webhook` route (`routes/orders.py`, lines
352-377) on a signature-verified event. `handlerRaises` injects an exception
inside the handler body: the route catches and logs it, the session's
uncommitted changes are discarded, and the response is still the success
acknowledgment. Unrecognized types are logged and ignored. The returned
string is the JSON response body's status field. -/
def stripe_webhook (db : DB) (ev : WebhookEvent) (handlerRaises : Bool) :
    DB × String :=
  match ev with
  | .checkoutSessionCompleted sid =>
    if handlerRaises then (db, "success")
    else (handle_successful_payment db sid, "success")
  | .checkoutSessionExpired sid =>
    if handlerRaises then (db, "success")
    else (handle_failed_payment db sid, "success")
  | .other _ => (db, "success")

/-- Request body of `register` (`routes/auth.py`). -/
structure RegisterData where
  email : String
  password : String
  fullName : String
  referralCode : Option String := none
deriving DecidableEq, Repr

/-- Outcome of a `register` request. -/
inductive RegisterOutcome where
  | emailTaken
  | invalidReferralCode
  | registered (email : String) (fullName : String) (isAdmin : Bool)
deriving DecidableEq, Repr

/-- The `register` route (`routes/auth.py`, lines 66-119): reject a taken
email; if a referral code was supplied it must exist, else HTTP 400
"Invalid referral code" with nothing persisted; then create the user (with
`referred_by` recording the supplied code), mint a fresh referral code for
them, and — when a valid code was supplied — record exactly one
`ReferralUse` for (that code, the new user). The fresh ids and the generated
code string and password hash are passed in explicitly. -/
def register (db : DB) (data : RegisterData)
    (newUserId newCodeId newUseId : Nat) (freshCode hash : String) :
    DB × RegisterOutcome :=
  if (db.users.find? fun u => u.email == data.email).isSome then
    (db, .emailTaken)
  else
    match data.referralCode with
    | some codeStr =>
      match db.referralCodes.find? fun rc => rc.code == codeStr with
      | none => (db, .invalidReferralCode)
      | some rc =>
        let user : UserRow :=
          { id := newUserId, email := data.email, fullName := data.fullName
            hashedPassword := hash, referredBy := some codeStr }
        let newCode : ReferralCodeRow :=
          { id := newCodeId, code := freshCode, userId := newUserId }
        let use : ReferralUseRow :=
          { id := newUseId, referralCodeId := rc.id
            referredUserId := newUserId }
        ({ db with
            users := db.users ++ [user]
            referralCodes := db.referralCodes ++ [newCode]
            referralUses := db.referralUses ++ [use] },
         .registered data.email data.fullName false)
    | none =>
      let user : UserRow :=
        { id := newUserId, email := data.email, fullName := data.fullName
          hashedPassword := hash, referredBy := none }
      let newCode : ReferralCodeRow :=
        { id := newCodeId, code := freshCode, userId := newUserId }
      ({ db with
          users := db.users ++ [user]
          referralCodes := db.referralCodes ++ [newCode] },
       .registered data.email data.fullName false)

/-- Activation permanence between two referral-use tables: every active row
of the first still appears (by id) in the second, still active and with its
`first_order_id` unchanged. -/
def activationPreservedL (l l' : List ReferralUseRow) : Prop :=
  ∀ ru ∈ l, ru.isActive = true →
    ∃ ru' ∈ l', ru'.id = ru.id ∧ ru'.isActive = true ∧
      ru'.firstOrderId = ru.firstOrderId

/-- Store with a single order already paid, reconciled by session `cs_1`. -/
def c1Db : DB :=
  { orders := [{ id := 1, uuid := "o1", userId := 7, productType := "grillz",
                 material := "gold", teethSelection := [1], totalPrice := 299,
                 stripePaymentIntent := some "cs_1", paymentStatus := "paid" }] }

/-- Store where user 1 owns code `CODE1` and the referral of user 2 under it
is NOT yet active (`is_active = false`) with the referrer flag unused; user 1
has no referee discount of their own. -/
def c2Db : DB :=
  { users := [{ id := 1, email := "r@x", fullName := "R",
                hashedPassword := "h" }]
    referralCodes := [{ id := 10, code := "CODE1", userId := 1 }]
    referralUses := [{ id := 100, referralCodeId := 10,
                       referredUserId := 2 }] }

/-- Store where user 1 was referred under code id 10 and has an unused
referee discount. -/
def c3Db : DB :=
  { users := [{ id := 1, email := "u@x", fullName := "U",
                hashedPassword := "h", referredBy := some "C" }]
    referralCodes := [{ id := 10, code := "C", userId := 2 }]
    referralUses := [{ id := 100, referralCodeId := 10,
                       referredUserId := 1 }] }

/-- A grillz order request for one gold tooth, opting into the referral
discount. -/
def c3Data : OrderCreate :=
  { productType := "grillz", material := "gold", teethSelection := [1]
    useReferralDiscount := true }

/-- Environment where the order insert's commit fails. -/
def c3EnvCommitFails : StripeEnv :=
  { orderCommitOk := false, checkoutSessionOk := true, sessionId := "cs_9" }

/-- Environment where the gateway checkout-session call fails. -/
def c3EnvSessionFails : StripeEnv :=
  { orderCommitOk := true, checkoutSessionOk := false, sessionId := "cs_9" }

/-- The spec's pricing scenario: material gold, four teeth selected. -/
def c5GoldData : OrderCreate :=
  { productType := "grillz", material := "gold",
    teethSelection := [11, 12, 21, 22] }

/-- Store where user 7 has an unused referee discount. -/
def c5Db : DB :=
  { referralUses := [{ id := 100, referralCodeId := 10,
                       referredUserId := 7 }] }

/-- Store where user 1 simultaneously has an unused referee discount (row
100, they are the referred party) and, on their own code 20, an active
referral with the referrer discount unused (row 101). -/
def c6Db : DB :=
  { users := [{ id := 1, email := "m@x", fullName := "M",
                hashedPassword := "h", referredBy := some "OTHER" }]
    referralCodes := [{ id := 10, code := "OTHER", userId := 2 },
                      { id := 20, code := "MINE", userId := 1 }]
    referralUses := [{ id := 100, referralCodeId := 10, referredUserId := 1 },
                     { id := 101, referralCodeId := 20, referredUserId := 3,
                       firstOrderId := some 5, isActive := true }] }

/-- Store with an already-activated referral of user 2 under user 1's code
`R1`, with `first_order_id` fixed to 5. -/
def c7Db : DB :=
  { users := [{ id := 2, email := "b@x", fullName := "B",
                hashedPassword := "h", referredBy := some "R1" }]
    referralCodes := [{ id := 10, code := "R1", userId := 1 }]
    referralUses := [{ id := 100, referralCodeId := 10, referredUserId := 2,
                       firstOrderId := some 5, isActive := true }] }

/-- The empty store: no users, no codes, so any supplied referral code is
invalid. -/
def c8Db : DB := { users := [], orders := [], referralCodes := [],
                   referralUses := [] }

/-- Registration request supplying the nonexistent code `ABC12345`. -/
def c8Data : RegisterData :=
  { email := "new@x", password := "pw", fullName := "N",
    referralCode := some "ABC12345" }

/-- Store with one pending order reconciled by session `cs_a`; session
`cs_unknown` matches no order. -/
def c9Db : DB :=
  { orders := [{ id := 1, uuid := "o1", userId := 7, productType := "grillz",
                 material := "gold", teethSelection := [1], totalPrice := 299,
                 stripePaymentIntent := some "cs_a",
                 paymentStatus := "pending" }] }

/-- Store exercising the preview/order disagreement: user 1 owns code
`CODE1`, its only referral use is inactive with the referrer flag unused. -/
def c10Db : DB :=
  { users := [{ id := 1, email := "r@x", fullName := "R",
                hashedPassword := "h" }]
    referralCodes := [{ id := 10, code := "CODE1", userId := 1 }]
    referralUses := [{ id := 100, referralCodeId := 10,
                       referredUserId := 2 }] }

/-! Helper lemmas shared by the claim theorems. -/

theorem activate_referral_bonus_orders (db : DB) (uid oid : Nat) :
    (activate_referral_bonus db uid oid).orders = db.orders := by
  unfold activate_referral_bonus
  repeat' split
  all_goals rfl

theorem findOrderBySession_mark (orders : List OrderRow) (sid : String)
    (oid : Nat) (st : String) :
    (orders.map fun x =>
        if x.id == oid then { x with paymentStatus := st } else x).find?
        (fun o => o.stripePaymentIntent == some sid)
      = Option.map
          (fun x => if x.id == oid then { x with paymentStatus := st } else x)
          (orders.find? fun o => o.stripePaymentIntent == some sid) := by
  rw [List.find?_map]
  have hpf : ((fun o : OrderRow => o.stripePaymentIntent == some sid) ∘
      fun x => if x.id == oid then { x with paymentStatus := st } else x)
      = fun o : OrderRow => o.stripePaymentIntent == some sid := by
    funext x
    cases hid : x.id == oid <;> simp [Function.comp, hid]
  rw [hpf]

theorem find?_eq_some_of_filter_eq_singleton {α : Type} {p : α → Bool}
    {l : List α} {a : α} (h : l.filter p = [a]) : l.find? p = some a := by
  induction l with
  | nil => simp at h
  | cons x xs ih =>
    cases hx : p x with
    | true =>
      rw [List.filter_cons_of_pos hx] at h
      rw [List.find?_cons_of_pos _ hx]
      exact congrArg some (List.cons_eq_cons.mp h).1
    | false =>
      rw [List.filter_cons_of_neg (by simp [hx])] at h
      rw [List.find?_cons_of_neg _ (by simp [hx])]
      exact ih h

theorem activationPreservedL_refl (l : List ReferralUseRow) :
    activationPreservedL l l :=
  fun ru hmem ha => ⟨ru, hmem, rfl, ha, rfl⟩

theorem activationPreservedL_append (l e : List ReferralUseRow) :
    activationPreservedL l (l ++ e) :=
  fun ru hmem ha => ⟨ru, List.mem_append_left _ hmem, rfl, ha, rfl⟩

theorem activationPreservedL_markReferee (l : List ReferralUseRow) (t : Nat) :
    activationPreservedL l (markRefereeUsed l t) := by
  intro ru hmem ha
  refine ⟨(fun x : ReferralUseRow =>
      if x.id == t then { x with refereeDiscountUsed := true } else x) ru,
    List.mem_map_of_mem _ hmem, ?_, ?_, ?_⟩ <;>
    cases hid : ru.id == t <;> simp [hid, ha]

theorem activationPreservedL_markReferrer (l : List ReferralUseRow) (t : Nat) :
    activationPreservedL l (markReferrerUsed l t) := by
  intro ru hmem ha
  refine ⟨(fun x : ReferralUseRow =>
      if x.id == t then { x with referrerDiscountUsed := true } else x) ru,
    List.mem_map_of_mem _ hmem, ?_, ?_, ?_⟩ <;>
    cases hid : ru.id == t <;> simp [hid, ha]

theorem activationPreservedL_activate (db : DB) (uid oid : Nat)
    (hnd : (db.referralUses.map fun ru => ru.id).Nodup) :
    activationPreservedL db.referralUses
      (activate_referral_bonus db uid oid).referralUses := by
  unfold activate_referral_bonus
  split
  · exact activationPreservedL_refl _
  split
  · exact activationPreservedL_refl _
  split
  · exact activationPreservedL_refl _
  split
  · exact activationPreservedL_refl _
  rename_i u _ codeStr _ rc _ ru0 hfind
  split
  · exact activationPreservedL_refl _
  rename_i hinactive
  intro ru hmem ha
  refine ⟨(fun x : ReferralUseRow =>
      if x.id == ru0.id then
        { x with isActive := true, firstOrderId := some oid }
      else x) ru,
    List.mem_map_of_mem _ hmem, ?_⟩
  cases hid : ru.id == ru0.id with
  | false => simp [hid, ha]
  | true =>
    have hru0mem : ru0 ∈ db.referralUses := List.mem_of_find?_eq_some hfind
    have heq : ru = ru0 :=
      List.inj_on_of_nodup_map hnd hmem hru0mem (by simpa using hid)
    rw [heq] at ha
    simp [ha] at hinactive

theorem apply_referral_discount_referralUses (db : DB) (uid : Nat) (p : ℚ) :
    activationPreservedL db.referralUses
      (apply_referral_discount db uid p).db.referralUses := by
  unfold apply_referral_discount
  split
  · exact activationPreservedL_markReferee _ _
  split
  · split
    · exact activationPreservedL_markReferrer _ _
    · exact activationPreservedL_refl _
  · exact activationPreservedL_refl _

theorem create_order_referralUses (db : DB) (uid : Nat) (data : OrderCreate)
    (nid : Nat) (u : String) (env : StripeEnv) :
    activationPreservedL db.referralUses
      (create_order db uid data nid u env).1.referralUses := by
  unfold create_order
  repeat' split
  all_goals
    first
      | exact apply_referral_discount_referralUses _ _ _
      | exact activationPreservedL_refl _

theorem handle_failed_payment_referralUses (db : DB) (sid : String) :
    (handle_failed_payment db sid).referralUses = db.referralUses := by
  unfold handle_failed_payment
  split <;> rfl

theorem handle_successful_payment_pres (db : DB) (sid : String)
    (hnd : (db.referralUses.map fun ru => ru.id).Nodup) :
    activationPreservedL db.referralUses
      (handle_successful_payment db sid).referralUses := by
  unfold handle_successful_payment
  split
  · exact activationPreservedL_refl _
  rename_i o hfind
  split
  · exact activationPreservedL_refl _
  exact activationPreservedL_activate
    { db with orders := db.orders.map fun x =>
        if x.id == o.id then { x with paymentStatus := "paid" } else x }
    o.userId o.id hnd

theorem register_referralUses (db : DB) (data : RegisterData)
    (i1 i2 i3 : Nat) (c h : String) :
    activationPreservedL db.referralUses
      (register db data i1 i2 i3 c h).1.referralUses := by
  unfold register
  repeat' split
  all_goals
    first
      | exact activationPreservedL_append _ _
      | exact activationPreservedL_refl _

theorem stripe_webhook_pres (db : DB) (ev : WebhookEvent) (raises : Bool)
    (hnd : (db.referralUses.map fun ru => ru.id).Nodup) :
    activationPreservedL db.referralUses
      (stripe_webhook db ev raises).1.referralUses := by
  unfold stripe_webhook
  cases ev with
  | checkoutSessionCompleted sid =>
    cases raises with
    | true => exact activationPreservedL_refl _
    | false => exact handle_successful_payment_pres _ _ hnd
  | checkoutSessionExpired sid =>
    cases raises with
    | true => exact activationPreservedL_refl _
    | false =>
      show activationPreservedL db.referralUses
        (handle_failed_payment db sid).referralUses
      rw [handle_failed_payment_referralUses]
      exact activationPreservedL_refl _
  | other t => exact activationPreservedL_refl _

theorem markRefereeUsed_referrer_flags (l : List ReferralUseRow) (t : Nat) :
    (markRefereeUsed l t).map (fun x => x.referrerDiscountUsed)
      = l.map fun x => x.referrerDiscountUsed := by
  unfold markRefereeUsed
  rw [List.map_map]
  apply List.map_congr_left
  intro a _
  cases hid : a.id == t <;> simp [Function.comp, hid]

/-- C1: evaluation of the code at the failing input. In `c1Db` the only order
is already `paid`, yet processing a `checkout.session.expired` event for its
checkout session marks it `failed` — `handle_failed_payment` transitions any
found order to `failed` with no guard on a `paid` status, contradicting the
spec's ordering-safety requirement that `expired` never downgrades a `paid`
order. -/
theorem c1_expired_event_reverts_paid_order :
    (c1Db.orders.map fun o => o.paymentStatus) = ["paid"]
  ∧ ((handle_failed_payment c1Db "cs_1").orders.map fun o => o.paymentStatus)
      = ["failed"]
  ∧ ((stripe_webhook c1Db (.checkoutSessionExpired "cs_1") false).1.orders.map
      fun o => o.paymentStatus) = ["failed"] :=
  ⟨rfl, rfl, rfl⟩

/-- C2 counterexample: in `c2Db` the single `ReferralUse` under user 1's code
has `is_active = false` and `referrer_discount_used = false`; user 1 has no
unused referee discount, yet order-time discount application still grants the
20% referrer discount — refuting the claim that `is_active = false` never
yields a referrer discount at order creation. -/
theorem c2_counterexample_inactive_referrer_discount :
    (c2Db.referralUses.map fun ru => (ru.isActive, ru.referrerDiscountUsed))
      = [(false, false)]
  ∧ findRefereeUse c2Db 1 = none
  ∧ (apply_referral_discount c2Db 1 100).discountType = some "referrer"
  ∧ (apply_referral_discount c2Db 1 100).totalPrice = 80
  ∧ ((apply_referral_discount c2Db 1 100).db.referralUses.map
      fun ru => ru.referrerDiscountUsed) = [true] := by
  refine ⟨rfl, rfl, rfl, ?_, rfl⟩
  have h : (apply_referral_discount c2Db 1 100).totalPrice
      = (100 : ℚ) * (4/5) := rfl
  rw [h]; norm_num

/-- C2 as amended: for a user with no unused referee discount who owns a
referral code, order creation with `use_referral_discount` grants the 20%
referrer discount only if some `ReferralUse` under that code has
`referrer_discount_used = false` — `is_active` is not checked; and whenever
exactly one such unused row exists under the code (the state where the
single-row lookup cannot raise and the model coincides with the code), the
20% discount is granted even with `is_active = false`. The only-if direction
is sound for the code because the model's grants are a superset of the
code's (on a multi-match state the code's `scalar_one_or_none` raises and the
`except` grants nothing). -/
theorem c2_amended_referrer_rule (db : DB) (userId : Nat) (price : ℚ)
    (rc : ReferralCodeRow)
    (h1 : findRefereeUse db userId = none)
    (h2 : findCodeOfUser db userId = some rc) :
    ((apply_referral_discount db userId price).discountType = some "referrer"
      → ∃ ru ∈ db.referralUses,
          ru.referralCodeId = rc.id ∧ ru.referrerDiscountUsed = false)
  ∧ (∀ ru : ReferralUseRow, referrerCandidates db rc.id = [ru] →
      (apply_referral_discount db userId price).discountType = some "referrer"
        ∧ (apply_referral_discount db userId price).totalPrice
            = price * (4/5)) := by
  constructor
  · intro hgrant
    cases hf : findReferrerUse db rc.id with
    | none => simp [apply_referral_discount, h1, h2, hf] at hgrant
    | some ru =>
      have hmem : ru ∈ db.referralUses := List.mem_of_find?_eq_some hf
      have hp := List.find?_some hf
      simp only [Bool.and_eq_true, beq_iff_eq] at hp
      exact ⟨ru, hmem, hp.1, hp.2⟩
  · intro ru hone
    have hf : findReferrerUse db rc.id = some ru :=
      find?_eq_some_of_filter_eq_singleton hone
    constructor <;> simp [apply_referral_discount, h1, h2, hf]

/-- C2 witness: the amended rule applied at the concrete store `c2Db`, whose
single unused referrer row under code 10 has `is_active = false`. -/
theorem c2_amended_witness :
    findRefereeUse c2Db 1 = none
  ∧ referrerCandidates c2Db 10 = [⟨100, 10, 2, none, false, false, false⟩]
  ∧ (apply_referral_discount c2Db 1 100).discountType = some "referrer" :=
  ⟨rfl, rfl,
   ((c2_amended_referrer_rule c2Db 1 100 ⟨10, "CODE1", 1⟩ rfl rfl).2
     ⟨100, 10, 2, none, false, false, false⟩ rfl).1⟩

/-- C3 counterexample: starting from `c3Db`, a discounted order creation whose
order insert fails leaves the referee flag consumed (`true`) with no order
persisted — the flag is not rolled back, refuting the claimed atomicity. -/
theorem c3_counterexample_flag_kept_on_failure :
    (c3Db.referralUses.map fun ru => ru.refereeDiscountUsed) = [false]
  ∧ (create_order c3Db 1 c3Data 50 "u50" c3EnvCommitFails).2
      = CreateOrderOutcome.orderCommitFailed
  ∧ ((create_order c3Db 1 c3Data 50 "u50"
        c3EnvCommitFails).1.referralUses.map
      fun ru => ru.refereeDiscountUsed) = [true]
  ∧ (create_order c3Db 1 c3Data 50 "u50" c3EnvCommitFails).1.orders = [] :=
  ⟨rfl, rfl, rfl, rfl⟩

/-- C3 as amended: `apply_referral_discount` commits the consumed flag in its
own transaction before the order is persisted, so a later failure of the
order insert (resp. of the checkout-session call) leaves the store exactly at
the flag-consumed state (resp. flag consumed plus a pending order), with no
rollback of the flag. -/
theorem c3_amended_flag_commit_not_atomic (db : DB) (userId : Nat)
    (data : OrderCreate) (price : ℚ) (nid : Nat) (u : String)
    (env : StripeEnv)
    (hp : compute_base_price data = .ok price)
    (hd : data.useReferralDiscount = true) :
    (env.orderCommitOk = false →
      create_order db userId data nid u env
        = ((apply_referral_discount db userId price).db,
           CreateOrderOutcome.orderCommitFailed))
  ∧ (env.orderCommitOk = true → env.checkoutSessionOk = false →
      (create_order db userId data nid u env).1.referralUses
          = (apply_referral_discount db userId price).db.referralUses
        ∧ (create_order db userId data nid u env).2
          = CreateOrderOutcome.checkoutSessionFailed) := by
  constructor
  · intro hc
    simp [create_order, hp, hd, hc]
  · intro hc hs
    simp [create_order, hp, hd, hc, hs]

/-- C3 witness: the amended statement applied at the concrete store `c3Db`
with a failing order insert. -/
theorem c3_amended_witness :
    create_order c3Db 1 c3Data 50 "u50" c3EnvCommitFails
      = ((apply_referral_discount c3Db 1 ((299 : ℚ) * ((1 : ℕ) : ℚ))).db,
         CreateOrderOutcome.orderCommitFailed) :=
  (c3_amended_flag_commit_not_atomic c3Db 1 c3Data
    ((299 : ℚ) * ((1 : ℕ) : ℚ)) 50 "u50" c3EnvCommitFails rfl rfl).1 rfl

/-- C10: the discount-preview endpoint and the order-time discount
application disagree: in `c10Db` (user 1 owns a code whose only referral use
has `referrer_discount_used = false` but `is_active = false`, and user 1 has
no referee discount), `check_available_discount` reports no discount while
order creation applies the 20% referrer discount. -/
theorem c10_preview_and_order_disagree :
    check_available_discount c10Db 1 = (0, none)
  ∧ (apply_referral_discount c10Db 1 100).discountType = some "referrer"
  ∧ (apply_referral_discount c10Db 1 100).totalPrice = 80 := by
  refine ⟨rfl, rfl, ?_⟩
  have h : (apply_referral_discount c10Db 1 100).totalPrice
      = (100 : ℚ) * (4/5) := rfl
  rw [h]; norm_num

/-- C4: processing the same `checkout.session.completed` event twice equals
processing it once: the second delivery finds the order already `paid` (or
still finds no order) and changes nothing, so at most one pending→paid
transition and at most one referral activation can occur. -/
theorem c4_completed_idempotent (db : DB) (sid : String) :
    handle_successful_payment (handle_successful_payment db sid) sid
      = handle_successful_payment db sid := by
  cases hfind : findOrderBySession db sid with
  | none =>
    have hr : handle_successful_payment db sid = db := by
      unfold handle_successful_payment
      rw [hfind]
    rw [hr]
    exact hr
  | some o =>
    cases hpaid : o.paymentStatus == "paid" with
    | true =>
      have hr : handle_successful_payment db sid = db := by
        unfold handle_successful_payment
        rw [hfind]
        simp [hpaid]
      rw [hr]
      exact hr
    | false =>
      have hstep : handle_successful_payment db sid
          = activate_referral_bonus
              { db with orders := db.orders.map fun x =>
                  if x.id == o.id then { x with paymentStatus := "paid" }
                  else x }
              o.userId o.id := by
        unfold handle_successful_payment
        rw [hfind]
        simp [hpaid]
      have horders : (handle_successful_payment db sid).orders
          = db.orders.map fun x =>
              if x.id == o.id then { x with paymentStatus := "paid" }
              else x := by
        rw [hstep, activate_referral_bonus_orders]
      have hfind2 : findOrderBySession (handle_successful_payment db sid) sid
          = some { o with paymentStatus := "paid" } := by
        unfold findOrderBySession
        rw [horders, findOrderBySession_mark]
        unfold findOrderBySession at hfind
        rw [hfind]
        simp
      set r := handle_successful_payment db sid with hr
      unfold handle_successful_payment
      rw [hfind2]
      simp

/-- C5: grillz pricing: for any material in the price table with unit price p
and any nonempty teeth selection of n teeth the base price is p × n; an
unknown material and an empty selection are each rejected with a validation
error, on which `create_order` persists nothing; material gold (unit price
299) with four teeth prices at 1196, and the 10% referee discount brings the
total to 1076.40. -/
theorem c5_grillz_pricing :
    (∀ (data : OrderCreate) (mc : MaterialConfig),
        data.productType = "grillz" →
        GRILLZ_PRICES.lookup data.material = some mc →
        data.teethSelection ≠ [] →
        compute_base_price data
          = .ok (mc.price * (data.teethSelection.length : ℚ)))
  ∧ (∀ data : OrderCreate, data.productType = "grillz" →
        GRILLZ_PRICES.lookup data.material = none →
        compute_base_price data = .error .invalidMaterial)
  ∧ (∀ (data : OrderCreate) (mc : MaterialConfig),
        data.productType = "grillz" →
        GRILLZ_PRICES.lookup data.material = some mc →
        data.teethSelection = [] →
        compute_base_price data = .error .noTeethSelected)
  ∧ (∀ (db : DB) (uid : Nat) (data : OrderCreate) (nid : Nat) (u : String)
        (env : StripeEnv) (e : PriceError),
        compute_base_price data = .error e →
        create_order db uid data nid u env = (db, .validationError e))
  ∧ compute_base_price c5GoldData = .ok 1196
  ∧ (apply_referral_discount c5Db 7 1196).discountType = some "referee"
  ∧ (apply_referral_discount c5Db 7 1196).totalPrice = 1076.40 := by
  refine ⟨?_, ?_, ?_, ?_, ?_, rfl, ?_⟩
  · intro data mc h1 h2 h3
    cases hT : data.teethSelection with
    | nil => exact absurd hT h3
    | cons a t => simp [compute_base_price, h1, h2, hT]
  · intro data h1 h2
    simp [compute_base_price, h1, h2]
  · intro data mc h1 h2 h3
    simp [compute_base_price, h1, h2, h3]
  · intro db uid data nid u env e he
    simp [create_order, he]
  · have h : compute_base_price c5GoldData
        = .ok ((299 : ℚ) * ((4 : ℕ) : ℚ)) := rfl
    rw [h]
    norm_num
  · have h : (apply_referral_discount c5Db 7 1196).totalPrice
        = (1196 : ℚ) * (9/10) := rfl
    rw [h]
    norm_num

/-- C5 witness: the general pricing rule applied at the spec's gold/4-teeth
scenario. -/
theorem c5_gold_witness :
    GRILLZ_PRICES.lookup "gold"
        = some ⟨299, "18K Gold", "Premium 18K gold finish"⟩
  ∧ compute_base_price c5GoldData
      = .ok ((299 : ℚ) * ((c5GoldData.teethSelection.length : ℕ) : ℚ)) :=
  ⟨rfl,
   c5_grillz_pricing.1 c5GoldData ⟨299, "18K Gold", "Premium 18K gold finish"⟩
     rfl rfl (by decide)⟩

/-- C6: discount precedence: a user who simultaneously has an unused referee
discount and an active unused referrer discount on their own code gets the
10% referee discount (never the 20% referrer one); the price is multiplied by
9/10 exactly once, the store changes only by marking that referee flag, and
every `referrer_discount_used` flag is left unchanged. -/
theorem c6_referee_precedence (db : DB) (userId : Nat) (price : ℚ)
    (ru : ReferralUseRow) (rc : ReferralCodeRow)
    (hru : findRefereeUse db userId = some ru)
    (hrc : findCodeOfUser db userId = some rc)
    (hready : (findActiveReferrerUse db rc.id).isSome = true) :
    (apply_referral_discount db userId price).discountType = some "referee"
  ∧ (apply_referral_discount db userId price).totalPrice = price * (9/10)
  ∧ (apply_referral_discount db userId price).db
      = { db with referralUses := markRefereeUsed db.referralUses ru.id }
  ∧ ((apply_referral_discount db userId price).db.referralUses.map
        fun x => x.referrerDiscountUsed)
      = db.referralUses.map fun x => x.referrerDiscountUsed := by
  have h3 : (apply_referral_discount db userId price).db
      = { db with referralUses := markRefereeUsed db.referralUses ru.id } := by
    simp [apply_referral_discount, hru]
  refine ⟨by simp [apply_referral_discount, hru],
    by simp [apply_referral_discount, hru], h3, ?_⟩
  rw [h3]
  exact markRefereeUsed_referrer_flags _ _

/-- C6 witness: precedence at the concrete store `c6Db`, where user 1 has
both discounts simultaneously available. -/
theorem c6_witness :
    (findActiveReferrerUse c6Db 20).isSome = true
  ∧ (apply_referral_discount c6Db 1 100).discountType = some "referee" :=
  ⟨rfl,
   (c6_referee_precedence c6Db 1 100 ⟨100, 10, 1, none, false, false, false⟩
     ⟨20, "MINE", 1⟩ rfl rfl rfl).1⟩

/-- C7: referral activation is permanent: under distinct referral-use row
ids, every operation of the modelled system (discount application, order
creation, payment reconciliation both ways, referral activation,
registration, webhook dispatch) keeps every already-active `ReferralUse`
active with its `first_order_id` unchanged. -/
theorem c7_activation_permanent (db : DB) (uid oid : Nat) (price : ℚ)
    (data : OrderCreate) (nid : Nat) (u : String) (env : StripeEnv)
    (sid : String) (regData : RegisterData) (i1 i2 i3 : Nat)
    (c h : String) (ev : WebhookEvent) (raises : Bool)
    (hnd : (db.referralUses.map fun ru => ru.id).Nodup) :
    activationPreservedL db.referralUses
        (apply_referral_discount db uid price).db.referralUses
  ∧ activationPreservedL db.referralUses
        (create_order db uid data nid u env).1.referralUses
  ∧ activationPreservedL db.referralUses
        (handle_successful_payment db sid).referralUses
  ∧ activationPreservedL db.referralUses
        (handle_failed_payment db sid).referralUses
  ∧ activationPreservedL db.referralUses
        (activate_referral_bonus db uid oid).referralUses
  ∧ activationPreservedL db.referralUses
        (register db regData i1 i2 i3 c h).1.referralUses
  ∧ activationPreservedL db.referralUses
        (stripe_webhook db ev raises).1.referralUses :=
  ⟨apply_referral_discount_referralUses db uid price,
   create_order_referralUses db uid data nid u env,
   handle_successful_payment_pres db sid hnd,
   by
     rw [handle_failed_payment_referralUses]
     exact activationPreservedL_refl _,
   activationPreservedL_activate db uid oid hnd,
   register_referralUses db regData i1 i2 i3 c h,
   stripe_webhook_pres db ev raises hnd⟩

/-- C7 witness: permanence of the activated referral in `c7Db` across a
repeated activation attempt. -/
theorem c7_witness :
    (c7Db.referralUses.map fun ru => ru.id).Nodup
  ∧ activationPreservedL c7Db.referralUses
      (activate_referral_bonus c7Db 2 9).referralUses :=
  ⟨by decide,
   (c7_activation_permanent c7Db 2 9 0
     { productType := "grillz", material := "gold" } 0 "" {} ""
     { email := "", password := "", fullName := "" } 0 0 0 "" ""
     (.other "") false (by decide)).2.2.2.2.1⟩

/-- C8: registration with a referral code matching no `ReferralCode` row is
rejected with a validation error and persists nothing; with a valid code it
creates the user with `referred_by` set to that code and appends exactly one
`ReferralUse` row for (that code, the new user). -/
theorem c8_registration_referral_validation (db : DB) (data : RegisterData)
    (n1 n2 n3 : Nat) (fresh hash : String) (codeStr : String)
    (hEmail : db.users.find? (fun u => u.email == data.email) = none)
    (hCode : data.referralCode = some codeStr) :
    (db.referralCodes.find? (fun rc => rc.code == codeStr) = none →
      register db data n1 n2 n3 fresh hash = (db, .invalidReferralCode))
  ∧ (∀ rc : ReferralCodeRow,
      db.referralCodes.find? (fun x => x.code == codeStr) = some rc →
      (register db data n1 n2 n3 fresh hash).1.users
          = db.users ++ [{ id := n1, email := data.email,
                           fullName := data.fullName, hashedPassword := hash,
                           referredBy := some codeStr }]
        ∧ (register db data n1 n2 n3 fresh hash).1.referralUses
          = db.referralUses ++ [{ id := n3, referralCodeId := rc.id,
                                  referredUserId := n1 }]
        ∧ (register db data n1 n2 n3 fresh hash).2
          = RegisterOutcome.registered data.email data.fullName false) := by
  constructor
  · intro hrc
    simp [register, hEmail, hCode, hrc]
  · intro rc hrc
    refine ⟨?_, ?_, ?_⟩ <;> simp [register, hEmail, hCode, hrc]

/-- C8 witness: the scenario of the spec — registering with the nonexistent
code `ABC12345` against the empty store is rejected and the store is
unchanged. -/
theorem c8_witness :
    c8Db.referralCodes.find? (fun rc => rc.code == "ABC12345") = none
  ∧ register c8Db c8Data 1 2 3 "fresh123" "hash"
      = (c8Db, RegisterOutcome.invalidReferralCode) :=
  ⟨rfl,
   (c8_registration_referral_validation c8Db c8Data 1 2 3 "fresh123" "hash"
     "ABC12345" rfl rfl).1 rfl⟩

/-- C9: once the signature is verified, the webhook endpoint always answers
with the success acknowledgment; an event whose session matches no order
mutates nothing, an exception inside a handler is caught and leaves the
store unchanged, and unrecognized event types are ignored. -/
theorem c9_webhook_always_acknowledges (db : DB) (ev : WebhookEvent)
    (raises : Bool) :
    ((stripe_webhook db ev raises).2 = "success")
  ∧ (∀ sid : String, ev = .checkoutSessionCompleted sid →
      findOrderBySession db sid = none →
      (stripe_webhook db ev false).1 = db)
  ∧ (∀ sid : String, ev = .checkoutSessionExpired sid →
      findOrderBySession db sid = none →
      (stripe_webhook db ev false).1 = db)
  ∧ (raises = true → (stripe_webhook db ev raises).1 = db)
  ∧ (∀ t : String, ev = .other t → (stripe_webhook db ev raises).1 = db) := by
  refine ⟨?_, ?_, ?_, ?_, ?_⟩
  · cases ev <;> cases raises <;> rfl
  · rintro sid rfl hn
    simp [stripe_webhook, handle_successful_payment, hn]
  · rintro sid rfl hn
    simp [stripe_webhook, handle_failed_payment, hn]
  · rintro rfl
    cases ev <;> rfl
  · rintro t rfl
    rfl

/-- C9 witness: the spec's unknown-session scenario at the concrete store
`c9Db`. -/
theorem c9_witness :
    findOrderBySession c9Db "cs_unknown" = none
  ∧ (stripe_webhook c9Db (.checkoutSessionCompleted "cs_unknown") false).1
      = c9Db
  ∧ (stripe_webhook c9Db (.checkoutSessionCompleted "cs_unknown") false).2
      = "success" := by
  refine ⟨rfl, ?_, ?_⟩
  · exact (c9_webhook_always_acknowledges c9Db
      (.checkoutSessionCompleted "cs_unknown") false).2.1 "cs_unknown" rfl rfl
  · exact (c9_webhook_always_acknowledges c9Db
      (.checkoutSessionCompleted "cs_unknown") false).1

end GrillzShop
